import Mathlib

/-!
# Verification of the training-app half-marathon plan generator

Shallow embedding of the core of the `training_app` repository:

* `training_app/services/calibration/running.py` — `calibrate_from_race`
* `training_app/services/planning/running_plan_generator.py` —
  `_round_km`, `PlanParams`, `generate_half_marathon_plan_7w_3d`
* `training_app/domain/{enums,profile,plan,workout}.py` — the data model

Modelling conventions:

* Python `float` arithmetic is modelled exactly by `ℚ` (the numeric claims
  are algebraic identities; the constants in the code: 4.5, 0.08, 0.80, 0.25,
  0.5, 20.0, 21.1 are taken at their decimal values).
* Python `datetime.date` is modelled by `ℤ` (a day number); `timedelta(days=k)`
  is `+ k`, and date comparison is integer comparison.
* Python `round` (no `ndigits`) rounds half to even (`pyRound` below).
* `raise ValueError(msg)` is modelled by the `Except String` monad.
* `list.sort(key=...)` (a stable sort) is modelled by `List.insertionSort`,
  which is also stable.
* `WorkoutTemplate.description` and the free-form `structure` dict are not
  carried in the embedding: no verified property mentions them.  The fields
  every claim depends on — the date of the workout, its `WorkoutType` tag and
  `target_distance_km` — are kept.
-/

/-- `training_app.domain.enums.WorkoutType`. -/
inductive WorkoutType where
  | easy
  | long
  | tempo
  | intervals
  | recovery
  | rest
  | race
deriving DecidableEq, Repr

/-- `training_app.domain.profile.RunningPaces`: four sec/km values. -/
structure RunningPaces where
  easy_min : ℚ
  easy_max : ℚ
  threshold : ℚ
  interval : ℚ
deriving DecidableEq, Repr

/-- `training_app.domain.profile.RunningProfile` (the `sport` field is the
constant `Sport.RUN` and is omitted). -/
structure RunningProfile where
  baseline_race_distance_km : ℚ
  baseline_race_time_sec : ℚ
  paces : RunningPaces
deriving DecidableEq, Repr

/-- `training_app.domain.workout.ScheduledWorkout`: a workout placed on a
calendar date.  `wtype` is `template.type`; the description of the template and
structure map carry no verified property and are omitted. -/
structure ScheduledWorkout where
  date : ℤ
  wtype : WorkoutType
  target_distance_km : Option ℚ
deriving DecidableEq, Repr

/-- `training_app.domain.plan.TrainingPlan`. -/
structure TrainingPlan where
  start_date : ℤ
  end_date : ℤ
  goal_race_date : ℤ
  workouts : List ScheduledWorkout
deriving DecidableEq, Repr

/-- `training_app.services.calibration.running.calibrate_from_race`. -/
def calibrate_from_race (race_distance_km race_time_sec : ℚ) : RunningProfile :=
  let race_pace_sec_per_km := race_time_sec / race_distance_km
  let threshold_pace := race_pace_sec_per_km + 8
  let easy_min := threshold_pace + 40
  let easy_max := threshold_pace + 80
  let interval_pace := threshold_pace - 15
  { baseline_race_distance_km := race_distance_km
    baseline_race_time_sec := race_time_sec
    paces :=
      { easy_min := easy_min
        easy_max := easy_max
        threshold := threshold_pace
        interval := interval_pace } }

/-- The Python built-in `round` with no `ndigits`: round half to even. -/
def pyRound (x : ℚ) : ℤ :=
  let f := ⌊x⌋
  let r := x - (f : ℚ)
  if r < 1 / 2 then f
  else if 1 / 2 < r then f + 1
  else if f % 2 = 0 then f else f + 1

/-- `_round_km(x) = round(x * 2) / 2.0` — nearest 0.5 km. -/
def round_km (x : ℚ) : ℚ :=
  (pyRound (x * 2) : ℚ) / 2

/-- `PlanParams` (frozen dataclass), with the default values of the source. -/
structure PlanParams where
  weeks : ℕ := 7
  days_per_week : ℕ := 3
  weekly_growth : ℚ := 8 / 100
  down_week_index : ℕ := 3
  down_week_factor : ℚ := 80 / 100
  frac_intervals : ℚ := 25 / 100
  frac_tempo : ℚ := 25 / 100
  frac_long : ℚ := 50 / 100
  long_cap_km : ℚ := 20
  race_week_easy_km : ℚ := 5
  race_week_tempo_km : ℚ := 6
  hm_distance_km : ℚ := 211 / 10
deriving DecidableEq, Repr

/-- The weekly-volume loop of `generate_half_marathon_plan_7w_3d`
(lines 135–152): seed `start_weekly_km = max(22.0, min(34.0, base * 4.5))`,
then for `w` in `range(weeks)`: the final week appends the running value
unchanged; otherwise the running value is multiplied by `down_week_factor`
at the cutback index, by `(1 + weekly_growth)` for `w > 0`, and appended. -/
def weekly_km (params : PlanParams) (base : ℚ) : List ℚ :=
  let start_weekly_km := max 22 (min 34 (base * (45 / 10)))
  ((List.range params.weeks).foldl
    (fun (acc : List ℚ × ℚ) (w : ℕ) =>
      let current := acc.2
      if w = params.weeks - 1 then
        (acc.1 ++ [current], current)
      else
        let current :=
          if w = params.down_week_index then current * params.down_week_factor
          else if 0 < w then current * (1 + params.weekly_growth)
          else current
        (acc.1 ++ [current], current))
    ([], start_weekly_km)).1

/-- Per-week session allocation of `generate_half_marathon_plan_7w_3d`
(lines 180–191): raw km per session type from the volume fractions, then
the long run is capped and any overflow is added to the tempo session.
Returns `(km_intervals, km_tempo, km_long)`. -/
def session_alloc (params : PlanParams) (wk_total : ℚ) : ℚ × ℚ × ℚ :=
  let km_intervals := wk_total * params.frac_intervals
  let km_tempo := wk_total * params.frac_tempo
  let km_long := wk_total * params.frac_long
  let km_long_capped := min km_long params.long_cap_km
  let overflow := km_long - km_long_capped
  let km_tempo := if 0 < overflow then km_tempo + overflow else km_tempo
  (km_intervals, km_tempo, km_long_capped)

/-- `add_workout` (lines 156–169): the scheduled workout it appends —
the target distance passes through `_round_km` when present. -/
def mkWorkout (d : ℤ) (wtype : WorkoutType) (km : Option ℚ) : ScheduledWorkout :=
  { date := d, wtype := wtype, target_distance_km := km.map round_km }

/-- The build-week loop of `generate_half_marathon_plan_7w_3d`
(lines 174–221): for each week `w` in `range(weeks - 1)`, three workouts —
intervals on `week_start + 1` (Tue), tempo on `week_start + 3` (Thu),
long on `week_start + 6` (Sun) — with distances from `session_alloc`
applied to `weekly_km[w]`. -/
def buildWeekWorkouts (params : PlanParams) (start_date : ℤ)
    (weekly : List ℚ) : List ScheduledWorkout :=
  (List.range (params.weeks - 1)).flatMap fun w =>
    let week_start := start_date + 7 * (w : ℤ)
    let d_intervals := week_start + 1
    let d_tempo := week_start + 3
    let d_long := week_start + 6
    let wk_total := weekly[w]!
    let alloc := session_alloc params wk_total
    [mkWorkout d_intervals .intervals (some alloc.1),
     mkWorkout d_tempo .tempo (some alloc.2.1),
     mkWorkout d_long .long (some alloc.2.2)]

/-- The race-week workouts of `generate_half_marathon_plan_7w_3d`
(lines 235–274): easy + strides 5 days before the race, a short tempo
3 days before, and the race itself on `goal_race_date`. -/
def raceWeekWorkouts (params : PlanParams) (goal_race_date : ℤ) :
    List ScheduledWorkout :=
  [mkWorkout (goal_race_date - 5) .easy (some params.race_week_easy_km),
   mkWorkout (goal_race_date - 3) .tempo (some params.race_week_tempo_km),
   mkWorkout goal_race_date .race (some params.hm_distance_km)]

/-- `generate_half_marathon_plan_7w_3d` (lines 105–283).  The three guard
checks come first; the build-week workouts are constructed; the final-week
window is then checked; the race-week workouts are appended; the list is
sorted by date and the plan assembled with
`end_date = race_week_start + 6`. -/
def generate_half_marathon_plan_7w_3d (profile : RunningProfile)
    (start_date goal_race_date : ℤ) (params : PlanParams) :
    Except String TrainingPlan :=
  if params.days_per_week ≠ 3 then
    .error "This generator is fixed to 3 days/week."
  else if params.weeks ≠ 7 then
    .error "This v0 generator expects 7 weeks."
  else if goal_race_date < start_date then
    .error "goal_race_date must be on/after start_date."
  else
    let base := profile.baseline_race_distance_km
    let weekly := weekly_km params base
    let buildWorkouts := buildWeekWorkouts params start_date weekly
    let race_week_start := start_date + 7 * ((params.weeks : ℤ) - 1)
    let race_week_end := race_week_start + 6
    if ¬ (race_week_start ≤ goal_race_date ∧ goal_race_date ≤ race_week_end) then
      .error "goal_race_date must fall in the final week for this v0 generator."
    else
      let workouts := buildWorkouts ++ raceWeekWorkouts params goal_race_date
      .ok
      { start_date := start_date
        end_date := race_week_end
        goal_race_date := goal_race_date
        workouts :=
          workouts.insertionSort (fun a b => a.date ≤ b.date) }

/-- The worked example profile of the spec: `calibrate_from_race(5.0, 1200)`. -/
def profile0 : RunningProfile := calibrate_from_race 5 1200

/-- One observable step of `generate_half_marathon_plan_7w_3d`: a call to
`add_workout` or a `raise`. -/
inductive GenEvent where
  | add (w : ScheduledWorkout)
  | err (msg : String)
deriving DecidableEq, Repr

/-- Whether an event is a `raise`. -/
def GenEvent.isErr : GenEvent → Bool
  | .err _ => true
  | .add _ => false

/-- Event trace of `generate_half_marathon_plan_7w_3d`: one `.add` event per
`add_workout` call and one `.err` event per `raise`, in the statement order
of the source — the three guard checks (lines 126–131), then the
`add_workout` calls of the build-week loop (lines 174–221), then the
final-week window check (lines 229–233), then the race-week
`add_workout` calls (lines 272–274). -/
def generateEvents (profile : RunningProfile) (start_date goal_race_date : ℤ)
    (params : PlanParams) : List GenEvent :=
  if params.days_per_week ≠ 3 then
    [.err "This generator is fixed to 3 days/week."]
  else if params.weeks ≠ 7 then
    [.err "This v0 generator expects 7 weeks."]
  else if goal_race_date < start_date then
    [.err "goal_race_date must be on/after start_date."]
  else
    let weekly := weekly_km params profile.baseline_race_distance_km
    let buildEvents := (buildWeekWorkouts params start_date weekly).map GenEvent.add
    let race_week_start := start_date + 7 * ((params.weeks : ℤ) - 1)
    let race_week_end := race_week_start + 6
    if ¬ (race_week_start ≤ goal_race_date ∧ goal_race_date ≤ race_week_end) then
      buildEvents ++
        [.err "goal_race_date must fall in the final week for this v0 generator."]
    else
      buildEvents ++ (raceWeekWorkouts params goal_race_date).map GenEvent.add

/-- Whether a generator run raised. -/
def isError : Except String TrainingPlan → Bool
  | .error _ => true
  | .ok _ => false

/-- The plan produced for the worked example of the spec: baseline 5 km in
1200 s, start day 0, race on day 45. -/
def plan45 : TrainingPlan :=
  (generate_half_marathon_plan_7w_3d profile0 0 45 {}).toOption.getD
    { start_date := 0, end_date := 0, goal_race_date := 0, workouts := [] }

/-- The plan produced for a race on day 43 (valid: day 43 lies in the final
calendar week, days 42–48). -/
def plan43 : TrainingPlan :=
  (generate_half_marathon_plan_7w_3d profile0 0 43 {}).toOption.getD
    { start_date := 0, end_date := 0, goal_race_date := 0, workouts := [] }

instance : IsTotal ScheduledWorkout (fun a b => a.date ≤ b.date) :=
  ⟨fun a b => le_total a.date b.date⟩

instance : IsTrans ScheduledWorkout (fun a b => a.date ≤ b.date) :=
  ⟨fun _ _ _ hab hbc => le_trans hab hbc⟩

/-- Closed form of the default-parameter weekly-volume list: writing `s` for
the seed `max 22 (min 34 (b * 4.5))`, the seven volumes are
`[s, s·1.08, s·1.08², s·1.08²·0.8, s·1.08²·0.8·1.08, s·1.08²·0.8·1.08², s·1.08²·0.8·1.08²]`. -/
theorem weekly_km_default (b : ℚ) :
    weekly_km {} b =
      [max 22 (min 34 (b * (45 / 10))),
       max 22 (min 34 (b * (45 / 10))) * (1 + 8 / 100),
       max 22 (min 34 (b * (45 / 10))) * (1 + 8 / 100) * (1 + 8 / 100),
       max 22 (min 34 (b * (45 / 10))) * (1 + 8 / 100) * (1 + 8 / 100) * (80 / 100),
       max 22 (min 34 (b * (45 / 10))) * (1 + 8 / 100) * (1 + 8 / 100) * (80 / 100)
         * (1 + 8 / 100),
       max 22 (min 34 (b * (45 / 10))) * (1 + 8 / 100) * (1 + 8 / 100) * (80 / 100)
         * (1 + 8 / 100) * (1 + 8 / 100),
       max 22 (min 34 (b * (45 / 10))) * (1 + 8 / 100) * (1 + 8 / 100) * (80 / 100)
         * (1 + 8 / 100) * (1 + 8 / 100)] := rfl

/-- Inversion for successful generation: the guards passed, the race date
lies in the final calendar week, and the plan is the sorted concatenation of
build-week and race-week workouts with `end_date = start_date + 48`. -/
theorem generate_ok_elim {profile : RunningProfile} {s g : ℤ} {params : PlanParams}
    {plan : TrainingPlan}
    (h : generate_half_marathon_plan_7w_3d profile s g params = .ok plan) :
    params.days_per_week = 3 ∧ params.weeks = 7 ∧
    s + 42 ≤ g ∧ g ≤ s + 48 ∧
    plan.start_date = s ∧ plan.end_date = s + 48 ∧ plan.goal_race_date = g ∧
    plan.workouts =
      ((buildWeekWorkouts params s (weekly_km params profile.baseline_race_distance_km)
        ++ raceWeekWorkouts params g).insertionSort fun a b => a.date ≤ b.date) := by
  unfold generate_half_marathon_plan_7w_3d at h
  split at h
  · exact absurd h (by simp)
  next h1 =>
  split at h
  · exact absurd h (by simp)
  next h2 =>
  split at h
  · exact absurd h (by simp)
  next h3 =>
  dsimp only at h
  split at h
  · exact absurd h (by simp)
  next h4 =>
  rw [not_ne_iff] at h1 h2
  rw [not_not] at h4
  obtain ⟨hlo, hhi⟩ := h4
  rw [h2] at hlo hhi h
  norm_num at hlo hhi h
  subst h
  refine ⟨h1, h2, by omega, by omega, rfl,
    show (s : ℤ) + 42 + 6 = s + 48 by ring, rfl, rfl⟩

/-- Every build-week workout is an intervals, tempo or long session. -/
theorem buildWeekWorkouts_wtype (params : PlanParams) (s : ℤ) (weekly : List ℚ) :
    ∀ x ∈ buildWeekWorkouts params s weekly,
      x.wtype = WorkoutType.intervals ∨ x.wtype = WorkoutType.tempo ∨
        x.wtype = WorkoutType.long := by
  intro x hx
  simp only [buildWeekWorkouts, List.mem_flatMap, List.mem_cons,
    List.not_mem_nil, or_false] at hx
  obtain ⟨w, _, hx | hx | hx⟩ := hx <;> subst hx <;> simp [mkWorkout]

/-- The half-marathon distance 21.1 km rounds to 21 km under `_round_km`. -/
theorem round_km_hm : round_km (211 / 10) = 21 := by
  have hfloor : ⌊(211 : ℚ) / 10 * 2⌋ = 42 := by norm_num
  unfold round_km pyRound
  rw [hfloor]
  norm_num

/-- C1: for every race_distance_km > 0 and race_time_sec > 0,
`calibrate_from_race` returns paces with threshold = time/distance + 8,
easy_min = threshold + 40, easy_max = threshold + 80,
interval = threshold − 15, and these satisfy
interval < threshold < easy_min < easy_max. -/
theorem C1_calibration_offsets_and_ordering (d t : ℚ) (hd : 0 < d) (ht : 0 < t) :
    (calibrate_from_race d t).paces.threshold = t / d + 8 ∧
    (calibrate_from_race d t).paces.easy_min =
      (calibrate_from_race d t).paces.threshold + 40 ∧
    (calibrate_from_race d t).paces.easy_max =
      (calibrate_from_race d t).paces.threshold + 80 ∧
    (calibrate_from_race d t).paces.interval =
      (calibrate_from_race d t).paces.threshold - 15 ∧
    (calibrate_from_race d t).paces.interval <
      (calibrate_from_race d t).paces.threshold ∧
    (calibrate_from_race d t).paces.threshold <
      (calibrate_from_race d t).paces.easy_min ∧
    (calibrate_from_race d t).paces.easy_min <
      (calibrate_from_race d t).paces.easy_max := by
  simp only [calibrate_from_race]
  norm_num

/-- Witness for C1 at the worked example of the spec: a 5 km race in 1200 s. -/
theorem C1_witness :
    (0 : ℚ) < 5 ∧ (0 : ℚ) < 1200 ∧
    ((calibrate_from_race 5 1200).paces.threshold = 1200 / 5 + 8 ∧
     (calibrate_from_race 5 1200).paces.easy_min =
       (calibrate_from_race 5 1200).paces.threshold + 40 ∧
     (calibrate_from_race 5 1200).paces.easy_max =
       (calibrate_from_race 5 1200).paces.threshold + 80 ∧
     (calibrate_from_race 5 1200).paces.interval =
       (calibrate_from_race 5 1200).paces.threshold - 15 ∧
     (calibrate_from_race 5 1200).paces.interval <
       (calibrate_from_race 5 1200).paces.threshold ∧
     (calibrate_from_race 5 1200).paces.threshold <
       (calibrate_from_race 5 1200).paces.easy_min ∧
     (calibrate_from_race 5 1200).paces.easy_min <
       (calibrate_from_race 5 1200).paces.easy_max) :=
  ⟨by norm_num, by norm_num,
    C1_calibration_offsets_and_ordering 5 1200 (by norm_num) (by norm_num)⟩

/-- C2: for every baseline race distance b, the 7-entry weekly volume list v
of the generator under default parameters satisfies
v[0] = clamp(b·4.5, 22, 34); v[w] = v[w−1]·0.80 for w = 3 (the cutback
index); v[w] = v[w−1]·1.08 for the other w in 1..5 (growth compounding on
the already-adjusted running value, including the value after the cutback);
and v[6] = v[5]. -/
theorem C2_weekly_volume_recurrence (b : ℚ) :
    (weekly_km {} b).length = 7 ∧
    (weekly_km {} b).getD 0 0 = max 22 (min 34 (b * (45 / 10))) ∧
    (weekly_km {} b).getD 1 0 = (weekly_km {} b).getD 0 0 * (1 + 8 / 100) ∧
    (weekly_km {} b).getD 2 0 = (weekly_km {} b).getD 1 0 * (1 + 8 / 100) ∧
    (weekly_km {} b).getD 3 0 = (weekly_km {} b).getD 2 0 * (80 / 100) ∧
    (weekly_km {} b).getD 4 0 = (weekly_km {} b).getD 3 0 * (1 + 8 / 100) ∧
    (weekly_km {} b).getD 5 0 = (weekly_km {} b).getD 4 0 * (1 + 8 / 100) ∧
    (weekly_km {} b).getD 6 0 = (weekly_km {} b).getD 5 0 :=
  ⟨rfl, rfl, rfl, rfl, rfl, rfl, rfl, rfl⟩

/-- C3: for every weekly volume V under default parameters, the pre-rounding
session distances are intervals = 0.25·V, long = min(0.5·V, 20),
tempo = 0.25·V plus the full excess max(0.5·V − 20, 0), and the three
distances sum exactly to V (no overflow ever goes to intervals). -/
theorem C3_session_allocation_conserves_volume (V : ℚ) :
    session_alloc {} V =
      (V * (25 / 100),
       V * (25 / 100) + max (V * (50 / 100) - 20) 0,
       min (V * (50 / 100)) 20) ∧
    (session_alloc {} V).1 + (session_alloc {} V).2.1 +
      (session_alloc {} V).2.2 = V := by
  have hmain : session_alloc {} V =
      (V * (25 / 100),
       V * (25 / 100) + max (V * (50 / 100) - 20) 0,
       min (V * (50 / 100)) 20) := by
    simp only [session_alloc]
    rcases le_or_lt (V * (50 / 100)) 20 with h | h
    · rw [min_eq_left h]
      have hov : ¬ (0 < V * (50 / 100) - V * (50 / 100)) := by norm_num
      rw [if_neg hov, max_eq_right (by linarith)]
      norm_num
    · rw [min_eq_right h.le]
      rw [if_pos (by linarith), max_eq_left (by linarith)]
  refine ⟨hmain, ?_⟩
  rw [hmain]
  rcases le_or_lt (V * (50 / 100)) 20 with h | h
  · rw [max_eq_right (by linarith), min_eq_left h]; ring
  · rw [max_eq_left (by linarith), min_eq_right h.le]; ring

/-- C4 counterexample: at profile0, start day 0 and race day 49 the generator
raises (49 > 48), but the event trace shows 18 workout-construction events
before the raise — the final-week window error is NOT raised before any
workout is constructed, refuting that part of the claim. -/
theorem C4_counterexample :
    isError (generate_half_marathon_plan_7w_3d profile0 0 49 {}) = true ∧
    (generateEvents profile0 0 49 {}).length = 19 ∧
    ((generateEvents profile0 0 49 {}).take 18).all (fun e => !e.isErr) = true ∧
    ¬ (∀ e ∈ generateEvents profile0 0 49 {}, e.isErr = true →
        (generateEvents profile0 0 49 {}).head? = some e) := by
  refine ⟨rfl, rfl, rfl, ?_⟩
  intro h
  have hmem : GenEvent.err
      "goal_race_date must fall in the final week for this v0 generator." ∈
      generateEvents profile0 0 49 {} := by decide
  have hhead := h _ hmem rfl
  have hq : ((generateEvents profile0 0 49 {}).head?).map GenEvent.isErr =
      some false := rfl
  rw [hhead] at hq
  simp [GenEvent.isErr] at hq

/-- C4 (amended): the generator raises if and only if days_per_week ≠ 3,
weeks ≠ 7, or goal_race_date lies outside [start_date + 42, start_date + 48];
the two configuration errors and the goal-before-start error are raised
before any workout is constructed, but the final-week window error is
raised only after all build-week workouts are constructed; in every case
the call returns either a fully built plan or an error with no partial
output. -/
theorem C4_amended_error_behaviour (profile : RunningProfile) (s g : ℤ)
    (params : PlanParams) :
    (isError (generate_half_marathon_plan_7w_3d profile s g params) = true ↔
      (params.days_per_week ≠ 3 ∨ params.weeks ≠ 7 ∨ g < s + 42 ∨ s + 48 < g)) ∧
    (params.days_per_week = 3 → params.weeks = 7 → s ≤ g →
      generateEvents profile s g params =
        ((buildWeekWorkouts params s
            (weekly_km params profile.baseline_race_distance_km)).map GenEvent.add) ++
          (if s + 42 ≤ g ∧ g ≤ s + 48 then
            (raceWeekWorkouts params g).map GenEvent.add
          else
            [GenEvent.err
              "goal_race_date must fall in the final week for this v0 generator."])) ∧
    ((params.days_per_week ≠ 3 ∨ params.weeks ≠ 7 ∨ g < s) →
      ∃ m, generateEvents profile s g params = [GenEvent.err m]) := by
  refine ⟨?_, ?_, ?_⟩
  · simp only [generate_half_marathon_plan_7w_3d]
    split_ifs with h1 h2 h3 h4
    · simp [isError, h1]
    · simp [isError, h2]
    · simp only [isError, true_iff]
      right; right; left; omega
    · simp only [isError, Bool.false_eq_true, false_iff]
      have h2w : params.weeks = 7 := not_ne_iff.mp h2
      rw [h2w] at h4
      push_neg
      refine ⟨not_ne_iff.mp h1, h2w, by omega, by omega⟩
    · simp only [isError, true_iff]
      have h2w : params.weeks = 7 := not_ne_iff.mp h2
      rw [h2w] at h4
      right; right
      omega
  · intro h1 h2 h3
    simp only [generateEvents]
    rw [if_neg (by simpa using h1), if_neg (by simpa using h2),
      if_neg (not_lt.mpr h3)]
    rw [h2]
    by_cases h4 : s + 42 ≤ g ∧ g ≤ s + 48
    · rw [if_neg (by push_neg; omega), if_pos h4]
    · rw [if_pos (by omega), if_neg h4]
  · intro h
    by_cases h1 : params.days_per_week ≠ 3
    · refine ⟨"This generator is fixed to 3 days/week.", ?_⟩
      simp only [generateEvents]
      rw [if_pos h1]
    · by_cases h2 : params.weeks ≠ 7
      · refine ⟨"This v0 generator expects 7 weeks.", ?_⟩
        simp only [generateEvents]
        rw [if_neg h1, if_pos h2]
      · have h3 : g < s := by tauto
        refine ⟨"goal_race_date must be on/after start_date.", ?_⟩
        simp only [generateEvents]
        rw [if_neg h1, if_neg h2, if_pos h3]

/-- Witness for the amended C4: with default parameters, start day 0 and race
day 49 the trace is the 18 build-week construction events followed by the
window error. -/
theorem C4_witness :
    ({} : PlanParams).days_per_week = 3 ∧ ({} : PlanParams).weeks = 7 ∧
    (0 : ℤ) ≤ 49 ∧
    generateEvents profile0 0 49 {} =
      ((buildWeekWorkouts {} 0
          (weekly_km {} profile0.baseline_race_distance_km)).map GenEvent.add) ++
        (if (0 : ℤ) + 42 ≤ 49 ∧ (49 : ℤ) ≤ 0 + 48 then
          (raceWeekWorkouts {} 49).map GenEvent.add
        else
          [GenEvent.err
            "goal_race_date must fall in the final week for this v0 generator."]) :=
  ⟨rfl, rfl, by norm_num,
    (C4_amended_error_behaviour profile0 0 49 {}).2.1 rfl rfl (by norm_num)⟩

/-- C5: every successfully generated plan contains exactly one RACE-type
workout; every RACE-type workout is dated at goal_race_date, which lies
inside the final calendar week [start_date + 42, start_date + 48]. -/
theorem C5_unique_race_workout (profile : RunningProfile) (s g : ℤ)
    (params : PlanParams) (plan : TrainingPlan)
    (h : generate_half_marathon_plan_7w_3d profile s g params = .ok plan) :
    plan.workouts.countP (fun w => decide (w.wtype = WorkoutType.race)) = 1 ∧
    (∀ w ∈ plan.workouts, w.wtype = WorkoutType.race → w.date = g) ∧
    s + 42 ≤ g ∧ g ≤ s + 48 := by
  obtain ⟨hd, hw7, h42, h48, hs, he, hg, hwk⟩ := generate_ok_elim h
  refine ⟨?_, ?_, h42, h48⟩
  · rw [hwk, List.Perm.countP_eq _ (List.perm_insertionSort _ _),
      List.countP_append]
    have hb : (buildWeekWorkouts params s
        (weekly_km params profile.baseline_race_distance_km)).countP
        (fun w => decide (w.wtype = WorkoutType.race)) = 0 := by
      rw [List.countP_eq_zero]
      intro x hx
      rcases buildWeekWorkouts_wtype params s _ x hx with h | h | h <;> simp [h]
    rw [hb]
    simp [raceWeekWorkouts, mkWorkout, List.countP_cons]
  · intro w hw hrace
    rw [hwk, List.mem_insertionSort, List.mem_append] at hw
    rcases hw with hw | hw
    · rcases buildWeekWorkouts_wtype params s _ w hw with h | h | h <;>
        rw [h] at hrace <;> exact absurd hrace (by simp)
    · simp only [raceWeekWorkouts, mkWorkout, List.mem_cons,
        List.not_mem_nil, or_false] at hw
      rcases hw with hw | hw | hw <;> subst hw <;> simp_all

/-- Witness for C5: the worked example (profile0, start day 0, race day 45). -/
theorem C5_witness :
    generate_half_marathon_plan_7w_3d profile0 0 45 {} = .ok plan45 ∧
    (plan45.workouts.countP (fun w => decide (w.wtype = WorkoutType.race)) = 1 ∧
     (∀ w ∈ plan45.workouts, w.wtype = WorkoutType.race → w.date = 45) ∧
     (0 : ℤ) + 42 ≤ 45 ∧ (45 : ℤ) ≤ 0 + 48) :=
  ⟨rfl, C5_unique_race_workout profile0 0 45 {} plan45 rfl⟩

/-- C6: every successfully generated plan satisfies
end_date = start_date + 48, regardless of where in the final week the race
falls. -/
theorem C6_plan_spans_48_days (profile : RunningProfile) (s g : ℤ)
    (params : PlanParams) (plan : TrainingPlan)
    (h : generate_half_marathon_plan_7w_3d profile s g params = .ok plan) :
    plan.end_date = plan.start_date + 48 := by
  obtain ⟨hd, hw7, h42, h48, hs, he, hg, hwk⟩ := generate_ok_elim h
  rw [he, hs]

/-- Witness for C6: the worked example (profile0, start day 0, race day 45). -/
theorem C6_witness :
    generate_half_marathon_plan_7w_3d profile0 0 45 {} = .ok plan45 ∧
    plan45.end_date = plan45.start_date + 48 :=
  ⟨rfl, C6_plan_spans_48_days profile0 0 45 {} plan45 rfl⟩

/-- C7 counterexample: at baseline 5 km the 7-entry weekly-volume list has
v[6] = v[5], so the claim that every non-cutback step strictly increases
fails at the final pair (w = 6). -/
theorem C7_counterexample :
    ¬ ∀ w : ℕ, 1 ≤ w → w ≤ 6 →
        (if w = 3 then
          (weekly_km {} 5).getD w 0 < (weekly_km {} 5).getD (w - 1) 0
        else
          (weekly_km {} 5).getD (w - 1) 0 < (weekly_km {} 5).getD w 0) := by
  intro h
  have h6 := h 6 (by norm_num) (by norm_num)
  rw [if_neg (by norm_num)] at h6
  exact lt_irrefl _ h6

/-- C7 (amended): in the 7-entry weekly-volume list, the volume strictly
increases at each step w = 1, 2, 4, 5, strictly decreases at the cutback
index w = 3, and the final entry v[6] equals v[5] (the race-week entry
carries the prior value forward unchanged). -/
theorem C7_amended_weekly_monotonicity (b : ℚ) :
    (weekly_km {} b).getD 0 0 < (weekly_km {} b).getD 1 0 ∧
    (weekly_km {} b).getD 1 0 < (weekly_km {} b).getD 2 0 ∧
    (weekly_km {} b).getD 3 0 < (weekly_km {} b).getD 2 0 ∧
    (weekly_km {} b).getD 3 0 < (weekly_km {} b).getD 4 0 ∧
    (weekly_km {} b).getD 4 0 < (weekly_km {} b).getD 5 0 ∧
    (weekly_km {} b).getD 6 0 = (weekly_km {} b).getD 5 0 := by
  have hs : (0 : ℚ) < max 22 (min 34 (b * (45 / 10))) :=
    lt_of_lt_of_le (by norm_num) (le_max_left _ _)
  refine ⟨?_, ?_, ?_, ?_, ?_, rfl⟩
  · show max 22 (min 34 (b * (45 / 10))) <
        max 22 (min 34 (b * (45 / 10))) * (1 + 8 / 100)
    nlinarith
  · show max 22 (min 34 (b * (45 / 10))) * (1 + 8 / 100) <
        max 22 (min 34 (b * (45 / 10))) * (1 + 8 / 100) * (1 + 8 / 100)
    nlinarith
  · show max 22 (min 34 (b * (45 / 10))) * (1 + 8 / 100) * (1 + 8 / 100)
        * (80 / 100) <
        max 22 (min 34 (b * (45 / 10))) * (1 + 8 / 100) * (1 + 8 / 100)
    nlinarith
  · show max 22 (min 34 (b * (45 / 10))) * (1 + 8 / 100) * (1 + 8 / 100)
        * (80 / 100) <
        max 22 (min 34 (b * (45 / 10))) * (1 + 8 / 100) * (1 + 8 / 100)
        * (80 / 100) * (1 + 8 / 100)
    nlinarith
  · show max 22 (min 34 (b * (45 / 10))) * (1 + 8 / 100) * (1 + 8 / 100)
        * (80 / 100) * (1 + 8 / 100) <
        max 22 (min 34 (b * (45 / 10))) * (1 + 8 / 100) * (1 + 8 / 100)
        * (80 / 100) * (1 + 8 / 100) * (1 + 8 / 100)
    nlinarith

/-- C8: in every successfully generated plan with default parameters, the
RACE workout target distance is the configured half-marathon distance
21.1 km passed through the same 0.5 km rounding used for training sessions,
which yields exactly 21 km. -/
theorem C8_race_distance_rounded (profile : RunningProfile) (s g : ℤ)
    (plan : TrainingPlan)
    (h : generate_half_marathon_plan_7w_3d profile s g {} = .ok plan) :
    (∀ w ∈ plan.workouts, w.wtype = WorkoutType.race →
      w.target_distance_km = some (round_km ({} : PlanParams).hm_distance_km)) ∧
    round_km ({} : PlanParams).hm_distance_km = 21 := by
  obtain ⟨hd, hw7, h42, h48, hs, he, hg, hwk⟩ := generate_ok_elim h
  refine ⟨?_, round_km_hm⟩
  intro w hw hrace
  rw [hwk, List.mem_insertionSort, List.mem_append] at hw
  rcases hw with hw | hw
  · rcases buildWeekWorkouts_wtype _ _ _ w hw with h | h | h <;>
      rw [h] at hrace <;> exact absurd hrace (by simp)
  · simp only [raceWeekWorkouts, mkWorkout, List.mem_cons,
      List.not_mem_nil, or_false] at hw
    rcases hw with hw | hw | hw <;> subst hw
    · exact absurd hrace (by simp [mkWorkout])
    · exact absurd hrace (by simp [mkWorkout])
    · rfl

/-- Witness for C8: the worked example (profile0, start day 0, race day 45). -/
theorem C8_witness :
    generate_half_marathon_plan_7w_3d profile0 0 45 {} = .ok plan45 ∧
    ((∀ w ∈ plan45.workouts, w.wtype = WorkoutType.race →
       w.target_distance_km = some (round_km ({} : PlanParams).hm_distance_km)) ∧
     round_km ({} : PlanParams).hm_distance_km = 21) :=
  ⟨rfl, C8_race_distance_rounded profile0 0 45 plan45 rfl⟩

/-- C9: in every successfully generated plan with default parameters, the
(date, type) pairs of the workouts are exactly: for each build week w in
0..5, intervals at start + 7w + 1, tempo at start + 7w + 3, long at
start + 7w + 6; plus easy at goal − 5, tempo at goal − 3 and the race at
goal; and the workout list is sorted non-decreasingly by date. -/
theorem C9_workout_dates_sorted (profile : RunningProfile) (s g : ℤ)
    (plan : TrainingPlan)
    (h : generate_half_marathon_plan_7w_3d profile s g {} = .ok plan) :
    List.Perm (plan.workouts.map fun w => (w.date, w.wtype))
      (((List.range 6).flatMap fun w =>
          [((s + 7 * (w : ℤ) + 1 : ℤ), WorkoutType.intervals),
           (s + 7 * (w : ℤ) + 3, WorkoutType.tempo),
           (s + 7 * (w : ℤ) + 6, WorkoutType.long)]) ++
        [((g - 5 : ℤ), WorkoutType.easy),
         (g - 3, WorkoutType.tempo),
         (g, WorkoutType.race)]) ∧
    List.Sorted (· ≤ ·) (plan.workouts.map fun w => w.date) := by
  obtain ⟨hd, hw7, h42, h48, hs, he, hg, hwk⟩ := generate_ok_elim h
  constructor
  · rw [hwk]
    have heq : ((buildWeekWorkouts {} s
          (weekly_km {} profile.baseline_race_distance_km)
        ++ raceWeekWorkouts {} g).map fun w => (w.date, w.wtype)) =
        (((List.range 6).flatMap fun w =>
          [((s + 7 * (w : ℤ) + 1 : ℤ), WorkoutType.intervals),
           (s + 7 * (w : ℤ) + 3, WorkoutType.tempo),
           (s + 7 * (w : ℤ) + 6, WorkoutType.long)]) ++
        [((g - 5 : ℤ), WorkoutType.easy),
         (g - 3, WorkoutType.tempo),
         (g, WorkoutType.race)]) := rfl
    rw [← heq]
    exact (List.perm_insertionSort _ _).map _
  · rw [hwk]
    show List.Pairwise _ _
    rw [List.pairwise_map]
    exact List.sorted_insertionSort
      (fun a b : ScheduledWorkout => a.date ≤ b.date) _

/-- Witness for C9: the worked example (profile0, start day 0, race day 45). -/
theorem C9_witness :
    generate_half_marathon_plan_7w_3d profile0 0 45 {} = .ok plan45 ∧
    (List.Perm (plan45.workouts.map fun w => (w.date, w.wtype))
      (((List.range 6).flatMap fun w =>
          [(((0 : ℤ) + 7 * (w : ℤ) + 1 : ℤ), WorkoutType.intervals),
           ((0 : ℤ) + 7 * (w : ℤ) + 3, WorkoutType.tempo),
           ((0 : ℤ) + 7 * (w : ℤ) + 6, WorkoutType.long)]) ++
        [(((45 : ℤ) - 5 : ℤ), WorkoutType.easy),
         ((45 : ℤ) - 3, WorkoutType.tempo),
         ((45 : ℤ), WorkoutType.race)]) ∧
     List.Sorted (· ≤ ·) (plan45.workouts.map fun w => w.date)) :=
  ⟨rfl, C9_workout_dates_sorted profile0 0 45 plan45 rfl⟩

/-- C10: with goal_race_date = start_date + 43 (a valid input), the
easy + strides taper workout at goal − 5 = start + 38 falls on the same
calendar date as the build-week-5 tempo workout (start + 35 + 3), before
the final calendar week begins at start + 42, so the returned plan contains
two distinct workouts (one EASY, one TEMPO) on the same date. -/
theorem C10_taper_overlaps_build_week :
    (generate_half_marathon_plan_7w_3d profile0 0 43 {}).toOption = some plan43 ∧
    (0 : ℤ) + 42 ≤ 43 ∧ (43 : ℤ) ≤ 0 + 48 ∧
    (43 : ℤ) - 5 = 0 + 7 * 5 + 3 ∧
    plan43.workouts.countP (fun w => decide (w.date = 38)) = 2 ∧
    (∃ w ∈ plan43.workouts, w.date = 38 ∧ w.wtype = WorkoutType.easy) ∧
    (∃ w ∈ plan43.workouts, w.date = 38 ∧ w.wtype = WorkoutType.tempo) ∧
    ((38 : ℤ) < 0 + 42) :=
  ⟨rfl, by norm_num, by norm_num, by norm_num, by decide, by decide, by decide,
    by norm_num⟩
